import Mathlib

/-!
Verification of the `clc` command-line calculator against its
natural-language specification.

This file gives a shallow embedding of the parts of the repository that the
checked claims are about: the fixed-width numeric model (`src/number.rs`),
the unit model (`src/unit.rs`), the alternative value model (`src/value.rs`),
the history buffer (`src/buffer.rs`), the lexer (`src/lexer.rs`) and the
shunting-yard parser / RPN evaluator (`src/parser.rs`, `src/functions.rs`).

Modelling conventions, used throughout:

* Rust `u64` payloads become `Nat`; wherever the Rust code relies on the
  fixed 64-bit representation the reduction `% 2^64` (or the width mask) is
  written out explicitly.  Integer overflow of `+ - * <<` is modelled with
  the wrapping semantics that the spec itself adopts ("integer arithmetic
  wraps silently at the operand's bit-width") and that the released binary
  exhibits (Rust wraps, and masks shift amounts, when overflow checks are
  disabled).  Integer division and remainder by zero, by contrast, abort in
  every Rust build profile, so the corresponding operations return `Option`
  with `none` standing for the abort.
* Rust `f64` is modelled by `ℚ`.  The model is exact for every concrete
  float appearing in this development (small dyadic rationals).  Known gaps,
  none of which any claim below depends on: `NaN`/infinities do not exist in
  `ℚ` (the float produced by bitwise ops on floats, `f64::NAN` in the
  source, is represented by the placeholder `f64NAN`); int-to-float casts
  are exact in the model while Rust rounds above `2^53`; rational division
  by zero yields `0` where IEEE yields an infinity; and of the two
  components of the `float_cmp` crate's default `approx_eq!` margin
  (absolute epsilon `f64::EPSILON`, 4 ulps) only the epsilon component is
  expressible over `ℚ` and is modelled.
* A Rust panic (index out of bounds, division by zero, `unreachable!`,
  `unwrap` failure, explicit `panic!`) is modelled as the absence of a
  result: `none`, or an `Except.error` whose message starts with `panic:`.
  Those error values represent a process abort, not a reported error.
-/

namespace Clc

/-- Two to the sixty-fourth, the modulus of Rust `u64` arithmetic. -/
def U64MOD : Nat := 18446744073709551616

/-- `Width` from `src/number.rs` (the enum in `src/value.rs` is identical
and is shared). -/
inductive Width where
  | U64 | U32 | U16 | U8
  | I64 | I32 | I16 | I8
deriving DecidableEq, Repr

/-- Bit-length of a width (implicit in the `number_cast!` macro arms). -/
def Width.bits : Width → Nat
  | .U64 => 64 | .U32 => 32 | .U16 => 16 | .U8 => 8
  | .I64 => 64 | .I32 => 32 | .I16 => 16 | .I8 => 8

/-- Signedness of a width (implicit in the `number_cast!` macro arms). -/
def Width.isSigned : Width → Bool
  | .I64 | .I32 | .I16 | .I8 => true
  | _ => false

/-- `Width::as_mask` from `src/number.rs`. -/
def Width.as_mask : Width → Nat
  | .U64 => 0xFFFFFFFFFFFFFFFF
  | .U32 => 0xFFFFFFFF
  | .U16 => 0xFFFF
  | .U8 => 0xFF
  | .I64 => 0xFFFFFFFFFFFFFFFF
  | .I32 => 0xFFFFFFFF
  | .I16 => 0xFFFF
  | .I8 => 0xFF

/-- `Width::mask` from `src/number.rs`. -/
def Width.mask (w : Width) (value : Nat) : Nat :=
  value &&& w.as_mask

/-- The `f64` model: exact rationals (see the conventions above). -/
abbrev F64 := ℚ

/-- Placeholder for `f64::NAN`, which has no counterpart in `ℚ`.  No claim
in this file inspects a NaN payload. -/
def f64NAN : F64 := 0

/-- Truncation toward zero, the rounding used by Rust `as` casts from
`f64` to an integer type. -/
def truncF64 (x : F64) : Int :=
  if 0 ≤ x then Rat.floor x else -(Rat.floor (-x))

/-- Saturating cast of an `f64` to the value range of a width, as performed
by `v as u64`, `v as i32`, … inside the `number_cast!`/`integer_cmp!`
macros (Rust float-to-int casts saturate at the type bounds). -/
def f64CastWidth (x : F64) (w : Width) : Int :=
  if w.isSigned then
    max (-(2 ^ (w.bits - 1) : Int)) (min ((2 ^ (w.bits - 1) : Int) - 1) (truncF64 x))
  else
    max 0 (min ((2 ^ w.bits : Int) - 1) (truncF64 x))

/-- Saturating cast `x as u64` of an `f64`, used when a float operand is
narrowed into an integer representation. -/
def f64CastU64 (x : F64) : Nat :=
  (max 0 (min ((2 ^ 64 : Int) - 1) (truncF64 x))).toNat

/-- `number_cast!(v, w, i-type)` interpreted as the mathematical value of a
stored payload at a width: unsigned widths read the low bits, signed widths
read them in two's complement. -/
def number_cast_int (v : Nat) (w : Width) : Int :=
  let m := v % 2 ^ w.bits
  if w.isSigned ∧ 2 ^ (w.bits - 1) ≤ m then (m : Int) - 2 ^ w.bits else (m : Int)

/-- `number_cast!(v, w, u64)`: reinterpret a payload at width `w`, then
cast to `u64` (sign-extending for signed widths). -/
def number_cast_u64 (v : Nat) (w : Width) : Nat :=
  ((number_cast_int v w).emod (2 ^ 64)).toNat

/-- `number_cast!(v, w, f64)`: reinterpret a payload at width `w`, then
cast to `f64` (exact in the rational model). -/
def number_cast_f64 (v : Nat) (w : Width) : F64 :=
  (number_cast_int v w : ℚ)

/-- The epsilon of `approx_eq!(f64, _, _)` with the `float_cmp` default
margin: `f64::EPSILON = 2^-52`.  (The margin's 4-ulp component is not
expressible over `ℚ`; see the modelling conventions.) -/
def epsF64 : F64 := 1 / 4503599627370496

/-- `approx_eq!(f64, a, b)` with the default margin, epsilon component. -/
def approxEqF64 (a b : F64) : Bool :=
  decide (|a - b| ≤ epsF64)

/-- `Number` from `src/number.rs`. -/
inductive Number where
  | Integer (v : Nat) (w : Width)
  | Float (x : F64)
deriving DecidableEq, Repr

/-- `Number::new_integer` from `src/number.rs`: the payload is masked to
the width on construction. -/
def Number.new_integer (v : Nat) (w : Width) : Number :=
  Number.Integer (w.mask v) w

/-- `Number::new_float` from `src/number.rs`. -/
def Number.new_float (x : F64) : Number :=
  Number.Float x

/-- Wrapping `u64` addition (`v1 + v2` with overflow checks disabled). -/
def u64Add (a b : Nat) : Nat := (a + b) % U64MOD

/-- Wrapping `u64` subtraction. -/
def u64Sub (a b : Nat) : Nat := (((a : Int) - b).emod (2 ^ 64)).toNat

/-- Wrapping `u64` multiplication. -/
def u64Mul (a b : Nat) : Nat := (a * b) % U64MOD

/-- Wrapping `u64` negation (`u64::wrapping_neg`). -/
def u64Neg (a : Nat) : Nat := ((-(a : Int)).emod (2 ^ 64)).toNat

/-- `u64` shift left with the shift amount masked modulo 64, the Rust
semantics of `<<` when overflow checks are disabled. -/
def u64Shl (a b : Nat) : Nat := (a <<< (b % 64)) % U64MOD

/-- `u64` logical shift right with the shift amount masked modulo 64. -/
def u64Shr (a b : Nat) : Nat := (a % U64MOD) >>> (b % 64)

/-- Bitwise complement `!v` on `u64`. -/
def u64Not (a : Nat) : Nat := (U64MOD - 1) - (a % U64MOD)

/-- `impl_arithmetic_op!(Add, add, +)` from `src/number.rs`: an integer
left operand masks the right operand (a float right operand is first cast
`as u64`) and keeps the left width; a float left operand casts an integer
right operand to `f64`. -/
def Number.add : Number → Number → Number
  | .Integer v1 w, .Integer v2 _ => Number.new_integer (u64Add v1 (w.mask v2)) w
  | .Integer v1 w, .Float x => Number.new_integer (u64Add v1 (w.mask (f64CastU64 x))) w
  | .Float x, .Integer v2 w => Number.new_float (x + number_cast_f64 v2 w)
  | .Float x, .Float y => Number.new_float (x + y)

/-- `impl_arithmetic_op!(Sub, sub, -)` from `src/number.rs`. -/
def Number.sub : Number → Number → Number
  | .Integer v1 w, .Integer v2 _ => Number.new_integer (u64Sub v1 (w.mask v2)) w
  | .Integer v1 w, .Float x => Number.new_integer (u64Sub v1 (w.mask (f64CastU64 x))) w
  | .Float x, .Integer v2 w => Number.new_float (x - number_cast_f64 v2 w)
  | .Float x, .Float y => Number.new_float (x - y)

/-- `impl_arithmetic_op!(Mul, mul, *)` from `src/number.rs`. -/
def Number.mul : Number → Number → Number
  | .Integer v1 w, .Integer v2 _ => Number.new_integer (u64Mul v1 (w.mask v2)) w
  | .Integer v1 w, .Float x => Number.new_integer (u64Mul v1 (w.mask (f64CastU64 x))) w
  | .Float x, .Integer v2 w => Number.new_float (x * number_cast_f64 v2 w)
  | .Float x, .Float y => Number.new_float (x * y)

/-- `impl_arithmetic_op!(Div, div, /)` from `src/number.rs`.  `v1 / d` on
`u64` aborts the process when `d = 0` (in every build profile); the abort
is modelled by `none`.  Float division follows the rational model. -/
def Number.div : Number → Number → Option Number
  | .Integer v1 w, .Integer v2 _ =>
    let d := w.mask v2
    if d = 0 then none else some (Number.new_integer (v1 / d) w)
  | .Integer v1 w, .Float x =>
    let d := w.mask (f64CastU64 x)
    if d = 0 then none else some (Number.new_integer (v1 / d) w)
  | .Float x, .Integer v2 w => some (Number.new_float (x / number_cast_f64 v2 w))
  | .Float x, .Float y => some (Number.new_float (x / y))

/-- `impl_arithmetic_op!(Rem, rem, %)` from `src/number.rs`; `v1 % 0` on
`u64` aborts, modelled by `none`. -/
def Number.rem : Number → Number → Option Number
  | .Integer v1 w, .Integer v2 _ =>
    let d := w.mask v2
    if d = 0 then none else some (Number.new_integer (v1 % d) w)
  | .Integer v1 w, .Float x =>
    let d := w.mask (f64CastU64 x)
    if d = 0 then none else some (Number.new_integer (v1 % d) w)
  | .Float x, .Integer v2 w =>
    let y := number_cast_f64 v2 w
    some (Number.new_float (x - y * (truncF64 (x / y) : ℚ)))
  | .Float x, .Float y => some (Number.new_float (x - y * (truncF64 (x / y) : ℚ)))

/-- `impl_bitwise_op!(BitAnd, bitand, &)` from `src/number.rs`: between two
integers the raw payloads are combined (the right payload is not masked to
the left width first); a float right operand is cast `as u64` and masked;
any float left operand yields `f64::NAN`. -/
def Number.bitand : Number → Number → Number
  | .Integer v1 w, .Integer v2 _ => Number.new_integer (v1 &&& v2) w
  | .Integer v1 w, .Float x => Number.new_integer (v1 &&& w.mask (f64CastU64 x)) w
  | .Float _, _ => Number.new_float f64NAN

/-- `impl_bitwise_op!(BitOr, bitor, |)` from `src/number.rs`. -/
def Number.bitor : Number → Number → Number
  | .Integer v1 w, .Integer v2 _ => Number.new_integer (v1 ||| v2) w
  | .Integer v1 w, .Float x => Number.new_integer (v1 ||| w.mask (f64CastU64 x)) w
  | .Float _, _ => Number.new_float f64NAN

/-- `impl_bitwise_op!(BitXor, bitxor, ^)` from `src/number.rs`. -/
def Number.bitxor : Number → Number → Number
  | .Integer v1 w, .Integer v2 _ => Number.new_integer (v1 ^^^ v2) w
  | .Integer v1 w, .Float x => Number.new_integer (v1 ^^^ w.mask (f64CastU64 x)) w
  | .Float _, _ => Number.new_float f64NAN

/-- `impl_bitwise_op!(Shl, shl, <<)` from `src/number.rs`, with the Rust
unchecked-shift semantics (shift amount taken modulo 64, see the modelling
conventions). -/
def Number.shl : Number → Number → Number
  | .Integer v1 w, .Integer v2 _ => Number.new_integer (u64Shl v1 v2) w
  | .Integer v1 w, .Float x => Number.new_integer (u64Shl v1 (w.mask (f64CastU64 x))) w
  | .Float _, _ => Number.new_float f64NAN

/-- `impl_bitwise_op!(Shr, shr, >>)` from `src/number.rs`. -/
def Number.shr : Number → Number → Number
  | .Integer v1 w, .Integer v2 _ => Number.new_integer (u64Shr v1 v2) w
  | .Integer v1 w, .Float x => Number.new_integer (u64Shr v1 (w.mask (f64CastU64 x))) w
  | .Float _, _ => Number.new_float f64NAN

/-- `impl Neg for Number` from `src/number.rs`. -/
def Number.neg : Number → Number
  | .Integer v w => Number.new_integer (u64Neg v) w
  | .Float x => Number.new_float (-x)

/-- `impl Not for Number` from `src/number.rs`. -/
def Number.not : Number → Number
  | .Integer v w => Number.new_integer (u64Not v) w
  | .Float x => Number.new_integer (if x ≠ 0 then 1 else 0) Width.U8

/-- `integer_cmp!(v1, v2, w)` with two integer payloads: both are
reinterpreted at width `w` and compared there. -/
def integer_cmp (v1 v2 : Nat) (w : Width) : Ordering :=
  compare (number_cast_int v1 w) (number_cast_int v2 w)

/-- `integer_cmp!(v1, x, w)` with a float second operand: the float is cast
to `w`'s machine type (saturating truncation) and compared there. -/
def integer_cmp_f (v1 : Nat) (x : F64) (w : Width) : Ordering :=
  compare (number_cast_int v1 w) (f64CastWidth x w)

/-- `impl Ord for Number` (`Number::cmp`) from `src/number.rs`: an integer
left operand compares at its own width, casting a float right operand into
that width; a float left operand casts an integer right operand to `f64`
and compares with `approx_eq!` tolerance. -/
def Number.cmp : Number → Number → Ordering
  | .Integer v1 w, .Integer v2 _ => integer_cmp v1 v2 w
  | .Integer v1 w, .Float x => integer_cmp_f v1 x w
  | .Float x, .Integer v2 w =>
    let vf := number_cast_f64 v2 w
    if approxEqF64 x vf then Ordering.eq
    else if x < vf then Ordering.lt
    else Ordering.gt
  | .Float x, .Float y =>
    if approxEqF64 x y then Ordering.eq
    else if x < y then Ordering.lt
    else Ordering.gt

/-- `impl PartialEq for Number` from `src/number.rs`:
`self.cmp(other) == Ordering::Equal`. -/
def Number.eq (a b : Number) : Bool :=
  decide (Number.cmp a b = Ordering.eq)

/-- `Number::to_signed` from `src/number.rs`: unsigned widths are
reinterpreted (`v as iN as u64`) under the signed width of the same
bit-length; signed widths and the payload are kept. -/
def Number.to_signed : Number → Number
  | .Integer v w =>
    match w with
    | .U64 => Number.new_integer (number_cast_u64 v Width.I64) Width.I64
    | .U32 => Number.new_integer (number_cast_u64 v Width.I32) Width.I32
    | .U16 => Number.new_integer (number_cast_u64 v Width.I16) Width.I16
    | .U8 => Number.new_integer (number_cast_u64 v Width.I8) Width.I8
    | _ => Number.new_integer v w
  | .Float x => Number.new_integer (f64CastU64 x) Width.I64

/-- `Number::to_unsigned` from `src/number.rs`, verbatim: for a signed
width the stored payload becomes `number_cast!(v, w, u64) * v` — the cast
value multiplied by the payload — and the width is left unchanged (it stays
signed).  The multiplication overflow is modelled wrapping. -/
def Number.to_unsigned : Number → Number
  | .Integer v w =>
    match w with
    | .I64 | .I32 | .I16 | .I8 => Number.new_integer (u64Mul (number_cast_u64 v w) v) w
    | _ => Number.new_integer v w
  | .Float x => Number.new_integer (f64CastU64 x) Width.U64

/-- `Number::to_float` from `src/number.rs`. -/
def Number.to_float : Number → Number
  | .Integer v w => Number.new_float (number_cast_f64 v w)
  | .Float x => Number.new_float x

/-- `Number::to_width` from `src/number.rs`. -/
def Number.to_width (n : Number) (w : Width) : Number :=
  match n with
  | .Integer v _ => Number.new_integer (number_cast_u64 v w) w
  | .Float x =>
    Number.new_integer (((f64CastWidth x w).emod (2 ^ 64)).toNat) w

/-- An integer `Number`'s payload is already reduced to its width (floats
satisfy the predicate vacuously).  This is the spec invariant "`Integer`
payload is always pre-masked to `width`". -/
def Number.wellMasked : Number → Bool
  | .Integer v w => decide (w.mask v = v)
  | .Float _ => true

/-- `Unit` from `src/unit.rs`. -/
inductive Unit where
  | Raw
  | Byte | Kilobyte | Megabyte | Gigabyte | Terabyte | Petabyte
  | Celsius | Fahrenheit | Kelvin
deriving DecidableEq, Repr

/-- `Unit::is_raw` from `src/unit.rs`. -/
def Unit.is_raw : Unit → Bool
  | .Raw => true
  | _ => false

/-- `Unit::is_size` from `src/unit.rs`. -/
def Unit.is_size : Unit → Bool
  | .Byte | .Kilobyte | .Megabyte | .Gigabyte | .Terabyte | .Petabyte => true
  | _ => false

/-- `Unit::group` from `src/unit.rs`. -/
def Unit.group : Unit → String
  | .Raw => "raw"
  | .Byte | .Kilobyte | .Megabyte | .Gigabyte | .Terabyte | .Petabyte => "size"
  | .Celsius | .Fahrenheit | .Kelvin => "temperature"

/-- Membership in the temperature group, i.e. `group() == "temperature"`
(the source tests groups through `group`/`is_size`; this Bool shorthand is
used to state claims about the temperature group). -/
def Unit.is_temperature : Unit → Bool
  | .Celsius | .Fahrenheit | .Kelvin => true
  | _ => false

/-- `Number::from(1024u64.pow(k))`, the size scale factors of `unit.rs`. -/
def sizeFactor (k : Nat) : Number :=
  Number.new_integer (1024 ^ k) Width.U64

/-- `Unit::normalize` from `src/unit.rs`. -/
def Unit.normalize (number : Number) (u : Unit) : Number :=
  match u with
  | .Byte => number.to_unsigned
  | .Kilobyte => (number.mul (sizeFactor 1)).to_unsigned
  | .Megabyte => (number.mul (sizeFactor 2)).to_unsigned
  | .Gigabyte => (number.mul (sizeFactor 3)).to_unsigned
  | .Terabyte => (number.mul (sizeFactor 4)).to_unsigned
  | .Petabyte => (number.mul (sizeFactor 5)).to_unsigned
  | .Celsius | .Fahrenheit | .Kelvin => number.to_float
  | _ => number

/-- `Unit::specialize` from `src/unit.rs`.  The divisions cannot abort:
the divisor is a nonzero float after `to_float`. -/
def Unit.specialize (number : Number) (u : Unit) : Option Number :=
  match u with
  | .Byte => some number.to_unsigned
  | .Kilobyte => number.to_float.div (sizeFactor 1)
  | .Megabyte => number.to_float.div (sizeFactor 2)
  | .Gigabyte => number.to_float.div (sizeFactor 3)
  | .Terabyte => number.to_float.div (sizeFactor 4)
  | .Petabyte => number.to_float.div (sizeFactor 5)
  | _ => some number

/-- `Number::from(c : f64)` constants used in the temperature formulas. -/
def numF (x : F64) : Number := Number.new_float x

/-- `Unit::convert` from `src/unit.rs`, with the match arms in source
order; the guard arms (`a == b`, `a.is_size() && b.is_size()`) become
if-chains.  All values flowing through the temperature formulas are floats
after `to_float`, so the embedded `Number.div`/`Number.mul` stay on the
total float paths; the `(9f64 / 5f64)`-style constants are folded. -/
def Unit.convert (value : Number) (f t : Unit) : Option Number :=
  match f, t with
  | .Raw, .Raw => some value
  | .Raw, _ => some (Unit.normalize value t)
  | _, .Raw => some (Unit.normalize value f)
  | a, b =>
    if a = b then some value
    else if a.is_size && b.is_size then some value
    else
      match a, b with
      | .Celsius, .Fahrenheit => some ((value.to_float.mul (numF (9 / 5))).add (numF 32))
      | .Celsius, .Kelvin => some (value.to_float.add (numF 273.15))
      | .Fahrenheit, .Celsius => some ((value.to_float.sub (numF 32)).mul (numF (5 / 9)))
      | .Fahrenheit, .Kelvin =>
        some (((value.to_float.sub (numF 32)).mul (numF (5 / 9))).add (numF 273.15))
      | .Kelvin, .Celsius => some (value.to_float.sub (numF 273.15))
      | .Kelvin, .Fahrenheit =>
        some (((value.to_float.sub (numF 273.15)).mul (numF (9 / 5))).add (numF 32))
      | _, _ => none

/-- The compatibility condition exactly as the specification words it (for
claim C5): same unit, or one side `Raw`, or both in the size group, or both
in the temperature group.  This definition follows the spec's words, to be
compared against `Unit.convert` from the source. -/
def specCompatibleUnits (f t : Unit) : Bool :=
  f == t || f == Unit.Raw || t == Unit.Raw
    || (f.is_size && t.is_size) || (f.is_temperature && t.is_temperature)

/-- `Value` from `src/value.rs` (the revision without units; the payload
and width behave exactly like `Number`). -/
inductive VValue where
  | Integer (v : Nat) (w : Width)
  | Float (x : F64)
deriving DecidableEq, Repr

/-- `impl Ord for Value` (`Value::cmp`) from `src/value.rs`; structurally
identical to `Number::cmp` (the `cmp!`/`do_cast!` macros match
`integer_cmp!`/`number_cast!`). -/
def VValue.cmp : VValue → VValue → Ordering
  | .Integer v1 w, .Integer v2 _ => integer_cmp v1 v2 w
  | .Integer v1 w, .Float x => integer_cmp_f v1 x w
  | .Float x, .Integer v2 w =>
    let vf := number_cast_f64 v2 w
    if approxEqF64 x vf then Ordering.eq
    else if x < vf then Ordering.lt
    else Ordering.gt
  | .Float x, .Float y =>
    if approxEqF64 x y then Ordering.eq
    else if x < y then Ordering.lt
    else Ordering.gt

/-- `impl PartialEq for Value` from `src/value.rs`:
`self.cmp(other) == Ordering::Equal`. -/
def VValue.eq (a b : VValue) : Bool :=
  decide (VValue.cmp a b = Ordering.eq)

/-- `Buffer` from `src/buffer.rs`.  The `filename` field and the file I/O
of `create`/`save` are outside the embedding; `contents`, `max_size` and
`size` are kept.  In every state `create`/`add` produce,
`contents.length = size`. -/
structure Buffer where
  contents : List VValue
  max_size : Nat
  size : Nat
deriving DecidableEq, Repr

/-- `Buffer::get` from `src/buffer.rs`, verbatim: indices strictly greater
than `size` return the zero value, anything else indexes `contents`
directly.  `none` models the index-out-of-bounds abort of
`self.contents[i]`. -/
def Buffer.get (b : Buffer) (i : Nat) : Option VValue :=
  if i > b.size then some (VValue.Integer 0 Width.U64)
  else b.contents.get? i

/-- `Buffer::add` from `src/buffer.rs`: below capacity the value is
prepended (push a placeholder, rotate right, overwrite slot 0) and `size`
grows; at capacity the oldest entry is dropped by the rotation. -/
def Buffer.add (b : Buffer) (value : VValue) : Buffer :=
  if b.size < b.max_size then
    { b with contents := value :: b.contents, size := b.size + 1 }
  else
    { b with contents := value :: (b.contents.dropLast) }

/-- `Assoc` from `src/operators.rs` / `src/parser.rs`. -/
inductive Assoc where
  | Left
  | Right
deriving DecidableEq, Repr

/-- `PRECEDENCE_TABLE` from `src/parser.rs` (the copy in `src/operators.rs`
is identical). -/
def PRECEDENCE_TABLE (s : String) : Option (Int × Assoc) :=
  match s with
  | "+u" => some (11, Assoc.Right)
  | "-u" => some (11, Assoc.Right)
  | "!u" => some (10, Assoc.Right)
  | "~u" => some (10, Assoc.Right)
  | "*" => some (9, Assoc.Left)
  | "/" => some (9, Assoc.Left)
  | "%" => some (9, Assoc.Left)
  | "+" => some (8, Assoc.Left)
  | "-" => some (8, Assoc.Left)
  | "<<" => some (7, Assoc.Left)
  | ">>" => some (7, Assoc.Left)
  | ">" => some (6, Assoc.Left)
  | "<" => some (6, Assoc.Left)
  | ">=" => some (6, Assoc.Left)
  | "<=" => some (6, Assoc.Left)
  | "==" => some (5, Assoc.Left)
  | "!=" => some (5, Assoc.Left)
  | "&" => some (4, Assoc.Left)
  | "^" => some (3, Assoc.Left)
  | "|" => some (2, Assoc.Left)
  | "&&" => some (1, Assoc.Left)
  | "||" => some (1, Assoc.Left)
  | "(" => some (0, Assoc.Right)
  | _ => none

/-- `is_unary` from `src/operators.rs`: an operator has a unary form when
its `u`-suffixed spelling is in the precedence table. -/
def is_unary (s : String) : Bool :=
  (PRECEDENCE_TABLE (s ++ "u")).isSome

/-- `get_prec` from `src/operators.rs`. -/
def get_prec (s : String) : Int :=
  match PRECEDENCE_TABLE s with
  | some (prec, _) => prec
  | none => -1

/-- `get_assoc` from `src/operators.rs`. -/
def get_assoc (s : String) : Assoc :=
  match PRECEDENCE_TABLE s with
  | some (_, assoc) => assoc
  | none => Assoc.Left

/-- `Token` from `src/lexer.rs` (the base tokens the lexer produces; the
intermediate `Value`/`Function` variants are introduced only by later
pipeline stages and never come out of `tokenize`). -/
inductive LToken where
  | Integer (v : Nat)
  | Float (x : F64)
  | Reference (v : Nat)
  | Identifier (s : String)
  | BinaryOp (s : String)
  | UnaryOp (s : String)
  | LParen
  | RParen
  | Newline
deriving DecidableEq, Repr

/-- `char_at!` from `src/lexer.rs`: out-of-range positions read as NUL. -/
def char_at (p : List Char) (i : Nat) : Char :=
  p.getD i (Char.ofNat 0)

/-- `bin_chars!` from `src/lexer.rs`. -/
def isBinChar (c : Char) : Bool := '0' ≤ c && c ≤ '1'

/-- `oct_chars!` from `src/lexer.rs`. -/
def isOctChar (c : Char) : Bool := '0' ≤ c && c ≤ '7'

/-- `digit_chars!` from `src/lexer.rs`. -/
def isDigitChar (c : Char) : Bool := '0' ≤ c && c ≤ '9'

/-- `hex_chars!` from `src/lexer.rs`. -/
def isHexChar (c : Char) : Bool :=
  isDigitChar c || ('a' ≤ c && c ≤ 'f') || ('A' ≤ c && c ≤ 'F')

/-- `ident_chars!` from `src/lexer.rs`: letters and underscore only. -/
def isIdentChar (c : Char) : Bool :=
  ('a' ≤ c && c ≤ 'z') || ('A' ≤ c && c ≤ 'Z') || c = '_'

/-- Numeric value of a digit character (any base up to 16). -/
def digitVal (c : Char) : Nat :=
  if isDigitChar c then c.toNat - 48
  else if 'a' ≤ c && c ≤ 'f' then c.toNat - 87
  else if 'A' ≤ c && c ≤ 'F' then c.toNat - 55
  else 0

/-- Value of a digit string in a base, as `u64::from_str_radix` computes
it (overflow is checked by the callers). -/
def digitsToNat (base : Nat) (cs : List Char) : Nat :=
  cs.foldl (fun acc c => acc * base + digitVal c) 0

/-- The subslice `program[i..j]`. -/
def slice (p : List Char) (i j : Nat) : List Char :=
  (p.take j).drop i

/-- The digit-scanning loop of `lex_integer_literal`: advance over digits
of the base, reject identifier characters, stop at anything else.  `fuel`
is an upper bound on the remaining loop iterations (`p.length + 1` always
suffices since `j` advances every step); exhaustion cannot happen on the
inputs `tokenize` supplies. -/
def intScan (p : List Char) (base : Nat) : Nat → Nat → Except String Nat
  | 0, _ => Except.error "out of fuel"
  | fuel + 1, j =>
    if j < p.length then
      let c := char_at p j
      if (base = 2 && isBinChar c) || (base = 8 && isOctChar c)
          || (base = 10 && isDigitChar c) || (base = 16 && isHexChar c) then
        intScan p base fuel (j + 1)
      else if isIdentChar c then Except.error "Invalid character in integer literal"
      else Except.ok j
    else Except.ok j

/-- `lex_integer_literal` from `src/lexer.rs`. -/
def lex_integer_literal (p : List Char) (i : Nat) (base : Nat) :
    Except String (LToken × Nat) :=
  if i ≥ p.length then Except.error "Unexpected end of input"
  else
    match intScan p base (p.length + 1) i with
    | Except.error e => Except.error e
    | Except.ok j =>
      if i = j then Except.error "Expected digit in integer literal"
      else
        let v := digitsToNat base (slice p i j)
        if v < 2 ^ 64 then Except.ok (LToken.Integer v, j)
        else Except.error "Failed to parse integer literal"

/-- The digit-scanning loop of `lex_float_literal` (decimal digits after
the point). -/
def floatScan (p : List Char) : Nat → Nat → Except String Nat
  | 0, _ => Except.error "out of fuel"
  | fuel + 1, k =>
    if k < p.length then
      let c := char_at p k
      if isDigitChar c then floatScan p fuel (k + 1)
      else if isIdentChar c then Except.error "Invalid character in float literal"
      else Except.ok k
    else Except.ok k

/-- The value `f64::from_str` produces for a slice of the form
`digits '.' digits` (either side possibly empty), modelled as the exact
decimal value (Rust rounds it to the nearest `f64`; exact for the literals
in this development). -/
def parseDecimalF64 (cs : List Char) : F64 :=
  let intPart := cs.takeWhile (fun c => c ≠ '.')
  let fracPart := (cs.dropWhile (fun c => c ≠ '.')).drop 1
  (digitsToNat 10 intPart : ℚ) + (digitsToNat 10 fracPart : ℚ) / (10 : ℚ) ^ fracPart.length

/-- `lex_float_literal` from `src/lexer.rs`; `i` points at the start of
the literal, `j` just past the `'.'`. -/
def lex_float_literal (p : List Char) (i j : Nat) : Except String (LToken × Nat) :=
  if i ≥ p.length then Except.error "Unexpected end of input"
  else
    match floatScan p (p.length + 1) j with
    | Except.error e => Except.error e
    | Except.ok k =>
      if j = k then Except.error "Expected digit in float literal"
      else Except.ok (LToken.Float (parseDecimalF64 (slice p i k)), k)

/-- The scanning loop of `lex_numeric_literal`: returns the stop position
and whether a `'.'` was consumed. -/
def numScan (p : List Char) : Nat → Nat → Except String (Nat × Bool)
  | 0, _ => Except.error "out of fuel"
  | fuel + 1, j =>
    if j < p.length then
      let c := char_at p j
      if isDigitChar c then numScan p fuel (j + 1)
      else if isIdentChar c then Except.error "Invalid character in numeric literal"
      else if c = '.' then Except.ok (j + 1, true)
      else Except.ok (j, false)
    else Except.ok (j, false)

/-- `lex_numeric_literal` from `src/lexer.rs`.  In the single-character
fast path the callers guarantee `p[i]` is a digit, so the `u64::from_str`
there always succeeds. -/
def lex_numeric_literal (p : List Char) (i : Nat) : Except String (LToken × Nat) :=
  if i = p.length - 1 then
    Except.ok (LToken.Integer (digitsToNat 10 (slice p i p.length)), i + 1)
  else
    match numScan p (p.length + 1) i with
    | Except.error e => Except.error e
    | Except.ok (j, period) =>
      if period then lex_float_literal p i j
      else lex_integer_literal p i 10

/-- The scanning loop of `lex_reference`, with its `zero`/`start` state
machine rejecting leading zeros. -/
def refScan (p : List Char) : Nat → Nat → Bool → Bool → Except String Nat
  | 0, _, _, _ => Except.error "out of fuel"
  | fuel + 1, j, zero, start =>
    if j < p.length then
      if zero && start then Except.error "Invalid reference"
      else
        let c := char_at p j
        if c = '0' then refScan p fuel (j + 1) true start
        else if isDigitChar c then refScan p fuel (j + 1) false false
        else if isIdentChar c then Except.error "Invalid character in reference"
        else Except.ok j
    else Except.ok j

/-- `lex_reference` from `src/lexer.rs`; `i` points just past the `'$'`. -/
def lex_reference (p : List Char) (i : Nat) : Except String (LToken × Nat) :=
  if i ≥ p.length then Except.error "Unexpected end of input after dollar"
  else
    match refScan p (p.length + 1) i false true with
    | Except.error e => Except.error e
    | Except.ok j =>
      if i = j then Except.error "Invalid reference"
      else
        let v := digitsToNat 10 (slice p i j)
        if v < 2 ^ 64 then Except.ok (LToken.Reference v, j)
        else Except.error "Failed to parse reference"

/-- The scanning loop of `lex_identifier`: identifier characters advance,
digits are rejected outright. -/
def identScan (p : List Char) : Nat → Nat → Except String Nat
  | 0, _ => Except.error "out of fuel"
  | fuel + 1, j =>
    if j < p.length then
      let c := char_at p j
      if isIdentChar c then identScan p fuel (j + 1)
      else if isDigitChar c then Except.error "Invalid character in identifier"
      else Except.ok j
    else Except.ok j

/-- `lex_identifier` from `src/lexer.rs`. -/
def lex_identifier (p : List Char) (i : Nat) : Except String (LToken × Nat) :=
  match identScan p (p.length + 1) i with
  | Except.error e => Except.error e
  | Except.ok j => Except.ok (LToken.Identifier (String.mk (slice p i j)), j)

/-- `OPERATORS` from `src/operators.rs`. -/
def OPERATORS : List String :=
  ["+", "-", "*", "/", "%", "==", "!=", ">", "<", ">=", "<=", "&", "|", "^",
   "<<", ">>", "&&", "||", "~", "!"]

/-- `LONGEST_OPERATOR` from `src/operators.rs`. -/
def LONGEST_OPERATOR : Nat := 2

/-- `OPERATORS` stably sorted by descending length, the alternation order
of the anchored regex `get_op_regex` builds; the regex therefore matches
the first operator in this order that is a prefix of the remaining input
(longest match, ties in source order). -/
def sortedOperators : List String :=
  ["==", "!=", ">=", "<=", "<<", ">>", "&&", "||",
   "+", "-", "*", "/", "%", ">", "<", "&", "|", "^", "~", "!"]

/-- `op_regex.find` on the upcoming slice: the first operator in the
alternation order that is a prefix of the slice. -/
def matchOp (s : List Char) : Option String :=
  sortedOperators.find? (fun op => s.take op.length == op.toList)

/-- The look-back of `tokenize`'s operator branch: the `unary` flag is
false exactly when the previous emitted token is an integer, float or
reference literal. -/
def lastIsLiteral (tokens : List LToken) : Bool :=
  match tokens.getLast? with
  | some (LToken.Integer _) => true
  | some (LToken.Float _) => true
  | some (LToken.Reference _) => true
  | _ => false

/-- The main loop of `tokenize` from `src/lexer.rs`.  Branches in source
arm order: `'0'`-prefixed literals, decimal literals, float literals,
references, identifiers, parentheses, newline, whitespace, operators.
`fuel = p.length + 1` always suffices because the position strictly
advances on every iteration. -/
def tokenizeGo (p : List Char) : Nat → Nat → List LToken → Except String (List LToken)
  | 0, _, _ => Except.error "out of fuel"
  | fuel + 1, i, tokens =>
    if i < p.length then
      let c := char_at p i
      if c = '0' then
        let c1 := char_at p (i + 1)
        let res :=
          if c1 = 'b' then lex_integer_literal p (i + 2) 2
          else if c1 = 'o' then lex_integer_literal p (i + 2) 8
          else if c1 = 'x' then lex_integer_literal p (i + 2) 16
          else lex_numeric_literal p i
        match res with
        | Except.error e => Except.error e
        | Except.ok (t, ni) => tokenizeGo p fuel ni (tokens ++ [t])
      else if isDigitChar c then
        match lex_numeric_literal p i with
        | Except.error e => Except.error e
        | Except.ok (t, ni) => tokenizeGo p fuel ni (tokens ++ [t])
      else if c = '.' then
        match lex_float_literal p i (i + 1) with
        | Except.error e => Except.error e
        | Except.ok (t, ni) => tokenizeGo p fuel ni (tokens ++ [t])
      else if c = '$' then
        match lex_reference p (i + 1) with
        | Except.error e => Except.error e
        | Except.ok (t, ni) => tokenizeGo p fuel ni (tokens ++ [t])
      else if isIdentChar c then
        match lex_identifier p i with
        | Except.error e => Except.error e
        | Except.ok (t, ni) => tokenizeGo p fuel ni (tokens ++ [t])
      else if c = '(' then tokenizeGo p fuel (i + 1) (tokens ++ [LToken.LParen])
      else if c = ')' then tokenizeGo p fuel (i + 1) (tokens ++ [LToken.RParen])
      else if c = '\n' then tokenizeGo p fuel (i + 1) (tokens ++ [LToken.Newline])
      else if c = ' ' || c = '\t' then tokenizeGo p fuel (i + 1) tokens
      else
        match matchOp (slice p i (min (i + LONGEST_OPERATOR) p.length)) with
        | none => Except.error "Unexpected character in input"
        | some op =>
          let tok :=
            if is_unary op then
              if lastIsLiteral tokens then LToken.BinaryOp op
              else LToken.UnaryOp (op ++ "u")
            else LToken.BinaryOp op
          tokenizeGo p fuel (i + op.length) (tokens ++ [tok])
    else Except.ok tokens

/-- `tokenize` from `src/lexer.rs`. -/
def tokenize (p : List Char) : Except String (List LToken) :=
  tokenizeGo p (p.length + 1) 0 []

/-- `Value` from the `src/functions.rs` / `src/parser.rs` revision: a
`Number` paired with a `Unit`.  Modelled from the spec: that revision's
`value.rs` is not under `src/`; per the spec a `Value` pairs a number with
a unit and a value whose unit is `Raw` never undergoes normalization, so
plain pairing is used for construction. -/
structure FValue where
  number : Number
  unit : Unit
deriving DecidableEq, Repr

/-- `Value::new_raw` (used by the `constant!` macro of
`src/functions.rs`). -/
def FValue.new_raw (n : Number) : FValue :=
  ⟨n, Unit.Raw⟩

/-- `bool::from(Number)` from `src/number.rs`: nonzero payload. -/
def numberToBool : Number → Bool
  | .Integer v _ => decide (v ≠ 0)
  | .Float x => decide (x ≠ 0)

/-- `Number::from(bool)` from `src/number.rs`: width `U8`. -/
def numberOfBool (b : Bool) : Number :=
  Number.new_integer (if b then 1 else 0) Width.U8

/-- `Function` from `src/functions.rs`.  The closures return
`Result<Value, String>`; a `panic:`-prefixed error models an abort inside
a closure (integer division by zero), not a reported `Err`. -/
inductive Function where
  | Unary (f : FValue → Except String FValue)
  | Binary (f : FValue → FValue → Except String FValue)

/-- A `binary!(|a: Number, b: Number| ...)` entry: take the unit from the
left operand, combine the numbers, rewrap. -/
def binaryNumber (op : Number → Number → Number) : Function :=
  Function.Binary (fun a b => Except.ok ⟨op a.number b.number, a.unit⟩)

/-- A `binary!` entry whose operator can abort (integer `/` and `%` by
zero). -/
def binaryNumberPartial (op : Number → Number → Option Number) : Function :=
  Function.Binary (fun a b =>
    match op a.number b.number with
    | some n => Except.ok ⟨n, a.unit⟩
    | none => Except.error "panic: integer division by zero")

/-- A comparison entry `binary!(|a: Number, b: Number| a < b)` etc.: the
boolean result is rewrapped through `Number::from(bool)`. -/
def binaryNumberCmp (op : Number → Number → Bool) : Function :=
  Function.Binary (fun a b => Except.ok ⟨numberOfBool (op a.number b.number), a.unit⟩)

/-- A `cast!(ty)` entry from `src/functions.rs`: convert the number into
the target machine type and rewrap with `Unit::Raw`.  For an integer
target the composition `Number::from(<ty>::from(v.number))` stores the
64-bit cast of the payload masked to the target width. -/
def castFn (wt : Width) : Function :=
  Function.Unary (fun v =>
    Except.ok ⟨(match v.number with
      | .Integer vv vw => Number.new_integer (number_cast_u64 vv vw) wt
      | .Float x => Number.new_integer (((f64CastWidth x wt).emod (2 ^ 64)).toNat) wt),
      Unit.Raw⟩)

/-- `CONST_TABLE` from `src/functions.rs`, restricted to its
integer-valued entries.  The float entries (`PI`, `E`, `NAN`, `INF`,
`NEG_INF`, `F64_MIN`, `F64_MAX`) denote irrational or non-finite `f64`
values that the rational float model cannot carry; no claim uses them. -/
def CONST_TABLE (name : String) : Option FValue :=
  match name with
  | "U64_MIN" => some (FValue.new_raw (Number.new_integer 0 Width.U64))
  | "U64_MAX" => some (FValue.new_raw (Number.new_integer (2 ^ 64 - 1) Width.U64))
  | "U32_MIN" => some (FValue.new_raw (Number.new_integer 0 Width.U32))
  | "U32_MAX" => some (FValue.new_raw (Number.new_integer (2 ^ 32 - 1) Width.U32))
  | "U16_MIN" => some (FValue.new_raw (Number.new_integer 0 Width.U16))
  | "U16_MAX" => some (FValue.new_raw (Number.new_integer (2 ^ 16 - 1) Width.U16))
  | "U8_MIN" => some (FValue.new_raw (Number.new_integer 0 Width.U8))
  | "U8_MAX" => some (FValue.new_raw (Number.new_integer (2 ^ 8 - 1) Width.U8))
  | "I64_MIN" => some (FValue.new_raw (Number.new_integer (2 ^ 63) Width.I64))
  | "I64_MAX" => some (FValue.new_raw (Number.new_integer (2 ^ 63 - 1) Width.I64))
  | "I32_MIN" => some (FValue.new_raw (Number.new_integer (2 ^ 64 - 2 ^ 31) Width.I32))
  | "I32_MAX" => some (FValue.new_raw (Number.new_integer (2 ^ 31 - 1) Width.I32))
  | "I16_MIN" => some (FValue.new_raw (Number.new_integer (2 ^ 64 - 2 ^ 15) Width.I16))
  | "I16_MAX" => some (FValue.new_raw (Number.new_integer (2 ^ 15 - 1) Width.I16))
  | "I8_MIN" => some (FValue.new_raw (Number.new_integer (2 ^ 64 - 2 ^ 7) Width.I8))
  | "I8_MAX" => some (FValue.new_raw (Number.new_integer (2 ^ 7 - 1) Width.I8))
  | _ => none

/-- `FUNC_TABLE` from `src/functions.rs`: the operator entries and the
width casts.  The transcendental math entries (`sin` … `rad`, computed
with `f64` library functions) and the unit-conversion entries (`bytes` …
`kelvin`, which go through the missing revision's `Value::convert`) are
outside the rational float model and are omitted; no claim evaluates
them. -/
def FUNC_TABLE (name : String) : Option Function :=
  match name with
  | "+u" => some (Function.Unary (fun v => Except.ok ⟨v.number, v.unit⟩))
  | "-u" => some (Function.Unary (fun v => Except.ok ⟨v.number.neg, v.unit⟩))
  | "!u" => some (Function.Unary (fun v =>
      Except.ok ⟨numberOfBool (!numberToBool v.number), v.unit⟩))
  | "~u" => some (Function.Unary (fun v => Except.ok ⟨v.number.not, v.unit⟩))
  | "+" => some (binaryNumber Number.add)
  | "-" => some (binaryNumber Number.sub)
  | "*" => some (binaryNumber Number.mul)
  | "/" => some (binaryNumberPartial Number.div)
  | "%" => some (binaryNumberPartial Number.rem)
  | "&" => some (binaryNumber Number.bitand)
  | "|" => some (binaryNumber Number.bitor)
  | "^" => some (binaryNumber Number.bitxor)
  | "<<" => some (binaryNumber Number.shl)
  | ">>" => some (binaryNumber Number.shr)
  | "<" => some (binaryNumberCmp (fun a b => decide (Number.cmp a b = Ordering.lt)))
  | ">" => some (binaryNumberCmp (fun a b => decide (Number.cmp a b = Ordering.gt)))
  | ">=" => some (binaryNumberCmp (fun a b => decide (Number.cmp a b ≠ Ordering.lt)))
  | "<=" => some (binaryNumberCmp (fun a b => decide (Number.cmp a b ≠ Ordering.gt)))
  | "==" => some (binaryNumberCmp Number.eq)
  | "!=" => some (binaryNumberCmp (fun a b => !Number.eq a b))
  | "&&" => some (Function.Binary (fun a b =>
      Except.ok ⟨numberOfBool (numberToBool a.number && numberToBool b.number), a.unit⟩))
  | "||" => some (Function.Binary (fun a b =>
      Except.ok ⟨numberOfBool (numberToBool a.number || numberToBool b.number), a.unit⟩))
  | "u64" => some (castFn Width.U64)
  | "u32" => some (castFn Width.U32)
  | "u16" => some (castFn Width.U16)
  | "u8" => some (castFn Width.U8)
  | "i64" => some (castFn Width.I64)
  | "i32" => some (castFn Width.I32)
  | "i16" => some (castFn Width.I16)
  | "i8" => some (castFn Width.I8)
  | "f64" => some (Function.Unary (fun v => Except.ok ⟨v.number.to_float, Unit.Raw⟩))
  | _ => none

/-- `ALIAS_TABLE` from `src/functions.rs`. -/
def ALIAS_TABLE (name : String) : Option String :=
  match name with
  | "KiB" => some "kilobyte"
  | "MiB" => some "megabyte"
  | "GiB" => some "gigabyte"
  | "TiB" => some "terabyte"
  | "PiB" => some "petabyte"
  | "tempC" => some "celsius"
  | "tempF" => some "fahrenheit"
  | "tempK" => some "kelvin"
  | _ => none

/-- `get_constant` from `src/functions.rs`. -/
def get_constant (name : String) : Option FValue :=
  CONST_TABLE name

/-- `get_function` from `src/functions.rs`: direct lookup, then one alias
hop. -/
def get_function (name : String) : Option Function :=
  (FUNC_TABLE name).orElse (fun _ => (ALIAS_TABLE name).bind FUNC_TABLE)

/-- `Token` as consumed by `src/parser.rs` (that revision's lexer resolves
literals to `Value` tokens and merges the unary/binary operator spellings
into `Operator`). -/
inductive PToken where
  | Value (v : FValue)
  | Identifier (s : String)
  | Operator (s : String)
  | LParen
  | RParen
  | Newline

/-- `Token::is_lparen` as used by `src/parser.rs`. -/
def PToken.is_lparen : PToken → Bool
  | .LParen => true
  | _ => false

/-- `Token::is_newline` as used by `src/parser.rs`. -/
def PToken.is_newline : PToken → Bool
  | .Newline => true
  | _ => false

/-- The inner while-loop of `convert_expr_posfix`'s operator case: pop
operators of no-lower precedence (while the incoming operator is
left-associative) from the operator stack (head = top) to the output.  A
missing precedence-table entry models the source's panicking index. -/
def popWhileGe (prec : Int) (assoc : Assoc) :
    List PToken → List PToken → Except String (List PToken × List PToken)
  | PToken.Operator t_op :: rest, rpn =>
    match PRECEDENCE_TABLE t_op with
    | none => Except.error "panic: operator missing from precedence table"
    | some (o_prec, _) =>
      if o_prec ≥ prec ∧ assoc = Assoc.Left then
        popWhileGe prec assoc rest (rpn ++ [PToken.Operator t_op])
      else Except.ok (PToken.Operator t_op :: rest, rpn)
  | stack, rpn => Except.ok (stack, rpn)

/-- The inner while-loop of `convert_expr_posfix`'s `RParen` case: pop to
the output until a left parenthesis surfaces (which is pushed back, i.e.
left at the head). -/
def popToParen : List PToken → List PToken → List PToken × List PToken
  | [], rpn => ([], rpn)
  | t :: rest, rpn =>
    if t.is_lparen then (t :: rest, rpn) else popToParen rest (rpn ++ [t])

/-- The final drain loop of `convert_expr_posfix`: pop everything left on
the operator stack to the output, erroring on a leftover left
parenthesis. -/
def drainStack : List PToken → List PToken → Except String (List PToken)
  | [], rpn => Except.ok rpn
  | t :: rest, rpn =>
    if t.is_lparen then Except.error "Unmatched RParen"
    else drainStack rest (rpn ++ [t])

/-- The token loop of `convert_expr_posfix` from `src/parser.rs`;
arguments: remaining tokens, operator stack (head = top), output queue. -/
def convGo : List PToken → List PToken → List PToken → Except String (List PToken)
  | [], opStack, rpn => drainStack opStack rpn
  | token :: restExpr, opStack, rpn =>
    match token with
    | .Value _ => convGo restExpr opStack (rpn ++ [token])
    | .Identifier id =>
      (match get_constant id with
       | some value => convGo restExpr opStack (rpn ++ [PToken.Value value])
       | none =>
         if (get_function id).isSome then
           convGo restExpr (PToken.Identifier id :: opStack) rpn
         else Except.error ("Unknown identifier " ++ id))
    | .Operator op =>
      (match PRECEDENCE_TABLE op with
       | none => Except.error "panic: operator missing from precedence table"
       | some (prec, assoc) =>
         match popWhileGe prec assoc opStack rpn with
         | Except.error e => Except.error e
         | Except.ok (opStack2, rpn2) =>
           convGo restExpr (PToken.Operator op :: opStack2) rpn2)
    | .LParen => convGo restExpr (token :: opStack) rpn
    | .RParen =>
      let (stack2, rpn2) := popToParen opStack rpn
      (match stack2 with
       | [] => Except.error "Encountered RParen without matching LParen"
       | _ :: stack3 =>
         match stack3 with
         | PToken.Identifier fid :: rest2 =>
           convGo restExpr rest2 (rpn2 ++ [PToken.Identifier fid])
         | _ => convGo restExpr stack3 rpn2)
    | .Newline => Except.error "panic: unreachable"

/-- `convert_expr_posfix` from `src/parser.rs` (source spelling kept). -/
def convert_expr_posfix (expr : List PToken) : Except String (List PToken) :=
  convGo expr [] []

/-- The token loop of `evaluate_expr_postfix` from `src/parser.rs`;
arguments: remaining RPN tokens, value stack (head = top), the `nargs`
argument counter. -/
def evalGo : List PToken → List FValue → Nat → Except String FValue
  | [], stack, _ =>
    (match stack with
     | [value] => Except.ok value
     | _ => Except.error "panic: unexpected stack state")
  | token :: rest, stack, nargs =>
    match token with
    | .Value v => evalGo rest (v :: stack) (nargs + 1)
    | .Identifier name | .Operator name =>
      (match get_function name with
       | none => Except.error "panic: unwrap of missing function"
       | some (Function.Unary f) =>
         if nargs < 1 then Except.error ("Expected one argument to " ++ name)
         else
           match stack with
           | [] => Except.error "panic: pop from empty stack"
           | arg :: stackRest =>
             match f arg with
             | Except.ok v => evalGo rest (v :: stackRest) nargs
             | Except.error e => Except.error e
       | some (Function.Binary f) =>
         if nargs < 2 then Except.error ("Expected two arguments to " ++ name)
         else
           match stack with
           | arg2 :: arg1 :: stackRest =>
             (match f arg1 arg2 with
              | Except.ok v => evalGo rest (v :: stackRest) (nargs - 1)
              | Except.error e => Except.error e)
           | _ => Except.error "panic: pop from empty stack")
    | _ => Except.error "panic: unreachable token in RPN expression"

/-- `evaluate_expr_postfix` from `src/parser.rs` (renamed, keeping the
source behaviour: an empty RPN expression is a panic). -/
def evaluateExprRpn (expr : List PToken) : Except String FValue :=
  if expr.isEmpty then Except.error "panic: empty expression"
  else evalGo expr [] 0

/-- The per-line loop of `parse` from `src/parser.rs`: skip empty token
runs, convert to postfix, skip empty results, evaluate, collect. -/
def parseLines : List (List PToken) → List FValue → Except String (List FValue)
  | [], acc => Except.ok acc
  | expr :: rest, acc =>
    if expr.isEmpty then parseLines rest acc
    else
      match convert_expr_posfix expr with
      | Except.error e => Except.error e
      | Except.ok rpn =>
        if rpn.isEmpty then parseLines rest acc
        else
          match evaluateExprRpn rpn with
          | Except.error e => Except.error e
          | Except.ok value => parseLines rest (acc ++ [value])

/-- `parse` from `src/parser.rs`: split at newlines, evaluate each
expression, return the last value (or the raw `u64` zero). -/
def parse (tokens : List PToken) : Except String FValue :=
  match parseLines (tokens.splitOnP PToken.is_newline) [] with
  | Except.error e => Except.error e
  | Except.ok values =>
    match values.getLast? with
    | some v => Except.ok v
    | none => Except.ok ⟨Number.Integer 0 Width.U64, Unit.Raw⟩

/-- Modelled from the spec: the lexer revision that feeds `src/parser.rs`
is not under `src/`; per the spec (and `Token::as_value` in
`src/lexer.rs`) integer literals become `u64` values, float literals
become floats, the unary/binary operator spellings are carried as operator
tokens, and `$N` references are resolved through the history buffer, which
is outside this claim's pipeline (no claimed input contains one). -/
def toParserToken : LToken → Option PToken
  | .Integer v => some (PToken.Value ⟨Number.Integer v Width.U64, Unit.Raw⟩)
  | .Float x => some (PToken.Value ⟨Number.Float x, Unit.Raw⟩)
  | .Identifier s => some (PToken.Identifier s)
  | .UnaryOp s => some (PToken.Operator s)
  | .BinaryOp s => some (PToken.Operator s)
  | .LParen => some PToken.LParen
  | .RParen => some PToken.RParen
  | .Newline => some PToken.Newline
  | .Reference _ => none

/-- `parse_and_evaluate` of the spec's external interface: bridge the
lexer's tokens to the parser's and run `parse`. -/
def parse_and_evaluate (lts : List LToken) : Except String FValue :=
  match lts.mapM toParserToken with
  | some pts => parse pts
  | none => Except.error "reference tokens are outside the modelled pipeline"

/-! ## Helper lemmas -/

/-- Masking is idempotent: `x &&& m &&& m = x &&& m`. -/
theorem Width.mask_mask (w : Width) (v : Nat) : w.mask (w.mask v) = w.mask v := by
  unfold Width.mask
  apply Nat.eq_of_testBit_eq
  intro i
  simp [Nat.testBit_land, Bool.and_assoc]

/-- Every `new_integer` satisfies the pre-masked invariant. -/
theorem wellMasked_new_integer (v : Nat) (w : Width) :
    Number.wellMasked (Number.new_integer v w) = true := by
  simp [Number.wellMasked, Number.new_integer, Width.mask_mask]

/-- Masking zero gives zero, for every width. -/
theorem Width.mask_zero (w : Width) : w.mask 0 = 0 := by
  cases w <;> decide

/-- The `approx_eq!` epsilon test is symmetric. -/
theorem approxEqF64_comm (x y : F64) : approxEqF64 x y = approxEqF64 y x := by
  simp [approxEqF64, abs_sub_comm]

/-- Every `new_float` satisfies the pre-masked invariant vacuously. -/
theorem wellMasked_new_float (x : F64) : Number.wellMasked (Number.new_float x) = true := rfl

/-- `integer_cmp` reports `eq` symmetrically. -/
theorem integer_cmp_eq_symm (v1 v2 : Nat) (w : Width) :
    decide (integer_cmp v1 v2 w = Ordering.eq)
      = decide (integer_cmp v2 v1 w = Ordering.eq) := by
  unfold integer_cmp
  rw [decide_eq_decide, compare_eq_iff_eq, compare_eq_iff_eq]
  exact eq_comm

/-! ## Claim theorems -/

/-- C1: evaluating integer division or remainder with a zero right operand
does not report an error value — it aborts.  For every integer left
operand and every width pair, `Number::div`/`Number::rem` with a zero
integer right operand produce no result (`none` models the `u64`
division-by-zero panic, which fires in every Rust build profile), and in
particular `1 / 0` at width `u64` aborts; no `DivisionByZero` /
`ArithmeticError` value exists anywhere on this path (the `FUNC_TABLE`
closures wrap every produced value in `Ok`). -/
theorem c1_integer_div_rem_by_zero_aborts :
    (∀ (v : Nat) (w1 w2 : Width),
        Number.div (Number.Integer v w1) (Number.Integer 0 w2) = none
        ∧ Number.rem (Number.Integer v w1) (Number.Integer 0 w2) = none)
    ∧ Number.div (Number.Integer 1 Width.U64) (Number.Integer 0 Width.U64) = none
    ∧ Number.rem (Number.Integer 1 Width.U64) (Number.Integer 0 Width.U64) = none := by
  refine ⟨fun v w1 w2 => ⟨?_, ?_⟩, by decide, by decide⟩
  · simp [Number.div, Width.mask_zero]
  · simp [Number.rem, Width.mask_zero]

/-- C2: the lexer classifies `+`/`-` as unary by "previous token is not a
literal", not by the claimed contexts.  In `"(1)-2"` the `-` immediately
follows a closing parenthesis — none of the claim's unary positions — yet
it is tokenized as `UnaryOp "-u"`; consequently the ordinary expression
`"(1+2)-3"` aborts during evaluation instead of computing `0`. -/
theorem c2_minus_after_rparen_lexed_unary :
    tokenize "(1)-2".toList
      = Except.ok [LToken.LParen, LToken.Integer 1, LToken.RParen,
                   LToken.UnaryOp "-u", LToken.Integer 2]
    ∧ (tokenize "(1+2)-3".toList).bind parse_and_evaluate
      = Except.error "panic: unexpected stack state" :=
  ⟨rfl, rfl⟩

unseal Rat.add Rat.sub Rat.mul Rat.inv in
/-- C3 counterexample: with the integer on the left, comparison does not
cast the integer to `f64` and compare approximately.  `Integer(1, U64)`
versus `Float(1 - 2^-53)` (the representable `f64` just below `1.0`,
written as the explicit rational `(2^53 - 1) / 2^53`) compares `Greater`
although the two `f64` values `1.0` and `1 - 2^-53` are approximately
equal (their distance `2^-53` is below the `f64::EPSILON` margin),
contradicting "equal whenever the two f64 values are approximately equal
... in either operand order". -/
theorem c3_integer_left_comparison_is_exact :
    Number.cmp (Number.Integer 1 Width.U64)
        (Number.Float (Rat.divInt 9007199254740991 9007199254740992)) = Ordering.gt
    ∧ approxEqF64 (number_cast_f64 1 Width.U64)
        (Rat.divInt 9007199254740991 9007199254740992) = true := by
  decide

/-- C3 amended: approximate equality applies in one operand order only.
When the float is the left operand, `cmp` casts the integer to `f64` and
reports `Equal` exactly when the two floats are approximately equal; when
the integer is the left operand, the float is instead cast into the
integer's width (saturating truncation toward zero) and the two are
compared with exact integer comparison. -/
theorem c3_mixed_comparison_order_dependent (v : Nat) (w : Width) (x : F64) :
    (decide (Number.cmp (Number.Float x) (Number.Integer v w) = Ordering.eq)
        = approxEqF64 x (number_cast_f64 v w))
    ∧ Number.cmp (Number.Integer v w) (Number.Float x)
        = compare (number_cast_int v w) (f64CastWidth x w) := by
  constructor
  · by_cases h : approxEqF64 x (number_cast_f64 v w) = true
    · simp [Number.cmp, h]
    · have h' : approxEqF64 x (number_cast_f64 v w) = false := by
        simpa using h
      simp only [Number.cmp, h', if_false, Bool.false_eq_true]
      split <;> simp
  · rfl

/-- C4: `to_unsigned` does not reinterpret the bit pattern under a new
width.  On `Integer(2, I64)` the source computes
`number_cast!(v, w, u64) * v` — the cast value multiplied by the payload —
and keeps the signed width, returning `Integer(4, I64)`: the stored bits
change from 2 to 4 and the width stays `I64`. -/
theorem c4_to_unsigned_changes_bits_and_keeps_width :
    Number.to_unsigned (Number.Integer 2 Width.I64) = Number.Integer 4 Width.I64 := by
  decide

/-- C5: `Unit::convert` returns a result exactly for the compatible pairs
the spec lists: same unit, at least one side `Raw`, both in the size
group, or both in the temperature group (`specCompatibleUnits` states the
spec's condition verbatim); every other pair yields no result. -/
theorem c5_convert_defined_iff_compatible (v : Number) (f t : Unit) :
    (Unit.convert v f t).isSome = specCompatibleUnits f t := by
  cases f <;> cases t <;> rfl

/-- C6: every `Number::Integer` produced by the constructor or by the
arithmetic, bitwise, shift, negation, complement or cast operations of
`number.rs` carries a payload already masked to its width (float results
satisfy the invariant vacuously; for the aborting division/remainder the
invariant holds for whichever result is produced). -/
theorem c6_integer_payloads_premasked :
    (∀ (v : Nat) (w : Width), Number.wellMasked (Number.new_integer v w) = true)
    ∧ (∀ (a b : Number),
        Number.wellMasked (a.add b) = true
        ∧ Number.wellMasked (a.sub b) = true
        ∧ Number.wellMasked (a.mul b) = true
        ∧ (Number.div a b).all Number.wellMasked = true
        ∧ (Number.rem a b).all Number.wellMasked = true
        ∧ Number.wellMasked (a.bitand b) = true
        ∧ Number.wellMasked (a.bitor b) = true
        ∧ Number.wellMasked (a.bitxor b) = true
        ∧ Number.wellMasked (a.shl b) = true
        ∧ Number.wellMasked (a.shr b) = true)
    ∧ (∀ a : Number,
        Number.wellMasked a.neg = true
        ∧ Number.wellMasked a.not = true
        ∧ Number.wellMasked a.to_signed = true
        ∧ Number.wellMasked a.to_unsigned = true
        ∧ Number.wellMasked a.to_float = true)
    ∧ (∀ (a : Number) (w : Width), Number.wellMasked (a.to_width w) = true) := by
  refine ⟨wellMasked_new_integer, fun a b => ?_, fun a => ?_, fun a w => ?_⟩
  · cases a <;> cases b <;>
      refine ⟨?_, ?_, ?_, ?_, ?_, ?_, ?_, ?_, ?_, ?_⟩ <;>
      first
        | exact wellMasked_new_integer _ _
        | rfl
        | (dsimp only [Number.div, Number.rem]
           split
           · rfl
           · exact wellMasked_new_integer _ _)
  · cases a with
    | Integer v w =>
      refine ⟨wellMasked_new_integer _ _, wellMasked_new_integer _ _, ?_, ?_,
          wellMasked_new_float _⟩ <;>
        cases w <;> exact wellMasked_new_integer _ _
    | Float x =>
      exact ⟨wellMasked_new_float _, wellMasked_new_integer _ _, wellMasked_new_integer _ _,
        wellMasked_new_integer _ _, wellMasked_new_float _⟩
  · cases a <;> exact wellMasked_new_integer _ _

/-- C7: multiplication binds tighter than addition and parentheses
override it: the full pipeline (lexer, token bridge, shunting-yard
conversion, RPN evaluation) takes `"1 + 2 * 3"` to the raw `u64`
integer 7, and `"(1 + 2) * 3"` to 9. -/
theorem c7_precedence_and_parentheses :
    (tokenize "1 + 2 * 3".toList).bind parse_and_evaluate
      = Except.ok ⟨Number.Integer 7 Width.U64, Unit.Raw⟩
    ∧ (tokenize "(1 + 2) * 3".toList).bind parse_and_evaluate
      = Except.ok ⟨Number.Integer 9 Width.U64, Unit.Raw⟩ :=
  ⟨rfl, rfl⟩

/-- C8: `Buffer::get` has an off-by-one guard (`i > size` instead of
`i >= size`): on the empty buffer produced by `create`, the out-of-range
index 0 aborts with an index-out-of-bounds panic (`none`) instead of
returning the zero value, while index 1 does return the zero value; on a
one-entry buffer the out-of-range index 1 likewise aborts. -/
theorem c8_buffer_get_index_equal_size_aborts :
    Buffer.get ⟨[], 32, 0⟩ 0 = none
    ∧ Buffer.get ⟨[], 32, 0⟩ 1 = some (VValue.Integer 0 Width.U64)
    ∧ Buffer.get ⟨[VValue.Integer 7 Width.U64], 32, 1⟩ 1 = none := by
  decide

/-- C9: the shift operations on an integer left operand are total in the
shipped (wrapping) semantics and always produce an integer of the left
operand's width whose payload is masked to that width, for every right
operand — integer of any width or magnitude (shift amounts are reduced
modulo 64 by the unchecked Rust shift) or float. -/
theorem c9_shifts_total_and_masked (v : Nat) (w : Width) (b : Number) :
    (∃ u, Number.shl (Number.Integer v w) b = Number.Integer u w ∧ w.mask u = u)
    ∧ (∃ u, Number.shr (Number.Integer v w) b = Number.Integer u w ∧ w.mask u = u) := by
  cases b <;>
    exact ⟨⟨_, rfl, Width.mask_mask w _⟩, ⟨_, rfl, Width.mask_mask w _⟩⟩

unseal Rat.add Rat.sub Rat.mul Rat.inv in
/-- C10 counterexample: equality is not symmetric.  `Integer(0, U64)`
equals `Float(0.5)` (the float is truncated into the integer's width)
but `Float(0.5)` does not equal `Integer(0, U64)` (approximate float
comparison); integers of different widths are likewise asymmetric, and
`value.rs`'s `Value` behaves the same way. -/
theorem c10_eq_asymmetric_on_mixed_operands :
    Number.eq (Number.Integer 0 Width.U64) (Number.Float (Rat.divInt 1 2)) = true
    ∧ Number.eq (Number.Float (Rat.divInt 1 2)) (Number.Integer 0 Width.U64) = false
    ∧ Number.eq (Number.Integer 0 Width.U8) (Number.Integer 256 Width.U64) = true
    ∧ Number.eq (Number.Integer 256 Width.U64) (Number.Integer 0 Width.U8) = false
    ∧ VValue.eq (VValue.Integer 0 Width.U64) (VValue.Float (Rat.divInt 1 2)) = true
    ∧ VValue.eq (VValue.Float (Rat.divInt 1 2)) (VValue.Integer 0 Width.U64) = false := by
  decide

/-- C10 amended: equality on `Number` (and on `Value`) is symmetric when
the operands are two integers of the same width or two floats; the mixed
integer/float cases (and integers of different widths) are order-dependent
and not symmetric in general. -/
theorem c10_eq_symmetric_same_kind (v1 v2 : Nat) (w : Width) (x y : F64) :
    Number.eq (Number.Integer v1 w) (Number.Integer v2 w)
      = Number.eq (Number.Integer v2 w) (Number.Integer v1 w)
    ∧ Number.eq (Number.Float x) (Number.Float y)
      = Number.eq (Number.Float y) (Number.Float x)
    ∧ VValue.eq (VValue.Integer v1 w) (VValue.Integer v2 w)
      = VValue.eq (VValue.Integer v2 w) (VValue.Integer v1 w)
    ∧ VValue.eq (VValue.Float x) (VValue.Float y)
      = VValue.eq (VValue.Float y) (VValue.Float x) := by
  refine ⟨?_, ?_, ?_, ?_⟩
  · simpa [Number.eq, Number.cmp] using integer_cmp_eq_symm v1 v2 w
  · by_cases h : approxEqF64 x y = true
    · have h2 : approxEqF64 y x = true := by rwa [approxEqF64_comm]
      simp [Number.eq, Number.cmp, h, h2]
    · have h' : approxEqF64 x y = false := by simpa using h
      have h2 : approxEqF64 y x = false := by rwa [approxEqF64_comm]
      simp only [Number.eq, Number.cmp, h', h2, if_false, Bool.false_eq_true]
      split <;> split <;> simp
  · simpa [VValue.eq, VValue.cmp] using integer_cmp_eq_symm v1 v2 w
  · by_cases h : approxEqF64 x y = true
    · have h2 : approxEqF64 y x = true := by rwa [approxEqF64_comm]
      simp [VValue.eq, VValue.cmp, h, h2]
    · have h' : approxEqF64 x y = false := by simpa using h
      have h2 : approxEqF64 y x = false := by rwa [approxEqF64_comm]
      simp only [VValue.eq, VValue.cmp, h', h2, if_false, Bool.false_eq_true]
      split <;> split <;> simp

end Clc
